import Mathlib

/-
  Shallow embedding of the llm-benchmarking-toolkit scripts.

  Sources embedded here:
    src/scripts/compare_outputs.py  (load_results, create_side_by_side_comparison,
                                     generate_performance_analysis)
    src/scripts/utils.py            (load_prompts, calculate_tokens_cost,
                                     format_response_data)
    src/scripts/run_prompts_openai.py and src/scripts/run_prompts_local.py
                                    (run_prompt_category; the two variants share
                                     this logic verbatim, differing only in the
                                     client object and the pacing sleep)

  Python floats are modelled as rationals.  Python round(x, n) is modelled by
  pyRound below via Mathlib round (round-half-up); Python rounds the underlying
  binary float half-to-even, which agrees with pyRound except at exact decimal
  ties, and no theorem below depends on a tie.  Dictionaries with string keys
  are modelled as association operations on lists (last write wins, matching
  dict comprehension semantics).  Optional dict fields read with .get are
  modelled as Option fields.
-/

namespace LLMBench

/-- A Result record as consumed by compare_outputs.py.  Fields accessed with
result[...] in the source are required; fields accessed with result.get(...)
are Option and None models an absent key. -/
structure ResultRec where
  prompt_id : String
  model : String
  response : String
  latency_seconds : ℚ
  total_tokens : Option ℕ
  cost_usd : Option ℚ
  response_length : ℕ
  words_count : Option ℕ
  category : Option String
  error : Option Bool
deriving DecidableEq, Repr

/-- One side (openai or local) of a Comparison record, compare_outputs.py
lines 48-67. -/
structure SideRec where
  model : String
  response : String
  latency_seconds : ℚ
  total_tokens : ℕ
  cost_usd : ℚ
  response_length : ℕ
  words_count : ℕ
  has_error : Bool
deriving DecidableEq, Repr

/-- comparison_metrics of a Comparison record, compare_outputs.py lines 68-73.
latencyRel and lengthRel model the source fields latency_ratio and
length_ratio. -/
structure Metrics where
  latencyRel : ℚ
  lengthRel : ℚ
  cost_savings : ℚ
  both_successful : Bool
deriving DecidableEq, Repr

/-- A Comparison record, compare_outputs.py lines 45-74.  localSide models the
"local" key of the source dict. -/
structure Comparison where
  prompt_id : String
  category : String
  openai : SideRec
  localSide : SideRec
  comparison_metrics : Metrics
deriving DecidableEq, Repr

/-- Per-category accumulator of generate_performance_analysis, lines 108-128.
avgLatencyRel and avgLengthRel model avg_latency_ratio and avg_length_ratio. -/
structure CategoryStats where
  count : ℕ
  avgLatencyRel : ℚ
  avgLengthRel : ℚ
  total_cost_savings : ℚ
deriving DecidableEq, Repr

/-- The "overview" object of the analysis, compare_outputs.py lines 131-138.
avgLatencyRel and avgRespLengthRel model avg_latency_ratio and
avg_response_length_ratio. -/
structure Overview where
  total_comparisons : ℕ
  successful_comparisons : ℕ
  success_rate : ℚ
  avgLatencyRel : ℚ
  avgRespLengthRel : ℚ
  total_cost_savings : ℚ
deriving DecidableEq, Repr

/-- The analysis object returned on the non-error path of
generate_performance_analysis (the performance_summary strings, pure
presentation built by float formatting, are not modelled).  The category
breakdown dict is modelled as an association list in insertion order. -/
structure Analysis where
  overview : Overview
  category_breakdown : List (String × CategoryStats)
deriving DecidableEq, Repr

/-- Python round(q, n): round to n decimal places.  Mathlib round is
round-half-up; see the header comment on ties. -/
def pyRound (q : ℚ) (n : ℕ) : ℚ :=
  ((round (q * (10 : ℚ) ^ n) : ℤ) : ℚ) / (10 : ℚ) ^ n

/-- The prompt_id keys of a result list, in order. -/
def keysOf (rs : List ResultRec) : List String :=
  rs.map (fun r => r.prompt_id)

/-- Lookup in the dict built by the comprehension
\x7bresult[..prompt_id..]: result for result in results\x7d: the last record
with the given prompt_id wins, i.e. the first match in the reversed list. -/
def dictLookup (rs : List ResultRec) (pid : String) : Option ResultRec :=
  rs.reverse.find? (fun r => r.prompt_id == pid)

/-- sorted(set(openai keys) & set(local keys)), compare_outputs.py
lines 33 and 41: the distinct shared keys in lexicographically sorted order.
On a list without duplicates the sorted permutation is unique, so any correct
sort models Python sorted; insertionSort is used because its recursion is
structural. -/
def sortedCommon (a b : List ResultRec) : List String :=
  List.insertionSort (· ≤ ·)
    ((keysOf a).dedup.filter (fun k => (keysOf b).contains k))

/-- Build one Comparison record, compare_outputs.py lines 45-74. -/
def mkComparison (pid : String) (o l : ResultRec) : Comparison :=
  { prompt_id := pid
    category := o.category.getD "unknown"
    openai :=
      { model := o.model
        response := o.response
        latency_seconds := o.latency_seconds
        total_tokens := o.total_tokens.getD 0
        cost_usd := o.cost_usd.getD 0
        response_length := o.response_length
        words_count := o.words_count.getD 0
        has_error := o.error.getD false }
    localSide :=
      { model := l.model
        response := l.response
        latency_seconds := l.latency_seconds
        total_tokens := l.total_tokens.getD 0
        cost_usd := 0
        response_length := l.response_length
        words_count := l.words_count.getD 0
        has_error := l.error.getD false }
    comparison_metrics :=
      { latencyRel := l.latency_seconds / max o.latency_seconds (1 / 1000)
        lengthRel := (l.response_length : ℚ) / ((max o.response_length 1 : ℕ) : ℚ)
        cost_savings := o.cost_usd.getD 0
        both_successful := !(o.error.getD false || l.error.getD false) } }

/-- The per-id step of the comparison loop: both lookups succeed for every id
in the intersection. -/
def comparisonStep (a b : List ResultRec) (pid : String) : Option Comparison :=
  match dictLookup a pid, dictLookup b pid with
  | some o, some l => some (mkComparison pid o l)
  | _, _ => none

/-- create_side_by_side_comparison, compare_outputs.py lines 25-78.  The early
return [] on an empty intersection coincides with mapping over the empty
sorted list. -/
def create_side_by_side_comparison (openai_results local_results : List ResultRec) :
    List Comparison :=
  (sortedCommon openai_results local_results).filterMap
    (comparisonStep openai_results local_results)

/-- One step of the category_analysis dict build, compare_outputs.py
lines 109-122: create the entry with zeroed fields on first sight of a
category, then accumulate count, the two ratio sums and cost_savings. -/
def updateCat (acc : List (String × CategoryStats)) (c : Comparison) :
    List (String × CategoryStats) :=
  let bump : CategoryStats → CategoryStats := fun s =>
    { count := s.count + 1
      avgLatencyRel := s.avgLatencyRel + c.comparison_metrics.latencyRel
      avgLengthRel := s.avgLengthRel + c.comparison_metrics.lengthRel
      total_cost_savings := s.total_cost_savings + c.comparison_metrics.cost_savings }
  if acc.any (fun p => p.1 == c.category) then
    acc.map (fun p => if p.1 == c.category then (p.1, bump p.2) else p)
  else
    acc ++ [(c.category, bump ⟨0, 0, 0, 0⟩)]

/-- The closing loop of the category breakdown, compare_outputs.py
lines 125-128: divide the two accumulated ratio sums by the count. -/
def finalizeCat (p : String × CategoryStats) : String × CategoryStats :=
  (p.1,
    { p.2 with
      avgLatencyRel := p.2.avgLatencyRel / (p.2.count : ℚ)
      avgLengthRel := p.2.avgLengthRel / (p.2.count : ℚ) })

/-- generate_performance_analysis, compare_outputs.py lines 80-145.  The
Python function returns either a dict with a single "error" key or the
analysis dict; this is modelled by Except.  It is a total function: no
exception can escape it. -/
def generate_performance_analysis (comparisons : List Comparison) :
    Except String Analysis :=
  if comparisons.isEmpty then Except.error "No comparisons available"
  else
    let successful := comparisons.filter (fun c => c.comparison_metrics.both_successful)
    if successful.isEmpty then Except.error "No successful comparisons available"
    else
      let total_comparisons := comparisons.length
      let successful_rate : ℚ := (successful.length : ℚ) / (total_comparisons : ℚ)
      let latencyRels := successful.map (fun c => c.comparison_metrics.latencyRel)
      let avgLatencyRel : ℚ := latencyRels.sum / (latencyRels.length : ℚ)
      let lengthRels := successful.map (fun c => c.comparison_metrics.lengthRel)
      let avgLengthRel : ℚ := lengthRels.sum / (lengthRels.length : ℚ)
      let total_openai_cost : ℚ := (successful.map (fun c => c.openai.cost_usd)).sum
      Except.ok
        { overview :=
            { total_comparisons := total_comparisons
              successful_comparisons := successful.length
              success_rate := pyRound (successful_rate * 100) 1
              avgLatencyRel := pyRound avgLatencyRel 2
              avgRespLengthRel := pyRound avgLengthRel 2
              total_cost_savings := pyRound total_openai_cost 4 }
          category_breakdown := (successful.foldl updateCat []).map finalizeCat }

/-- The static per-model price table of calculate_tokens_cost, utils.py
lines 21-25 (rates per 1000 tokens; 0.03 = 3/100 and so on). -/
def pricing : List (String × (ℚ × ℚ)) :=
  [("gpt-4", (3 / 100, 6 / 100)),
   ("gpt-4-turbo", (1 / 100, 3 / 100)),
   ("gpt-4o", (5 / 1000, 15 / 1000))]

/-- calculate_tokens_cost, utils.py lines 18-33: unknown model names fall back
to the "gpt-4" rates. -/
def calculate_tokens_cost (input_tokens output_tokens : ℕ) (model : String) : ℚ :=
  let m := if (pricing.lookup model).isSome then model else "gpt-4"
  let p := (pricing.lookup m).getD (0, 0)
  ((input_tokens : ℚ) / 1000) * p.1 + ((output_tokens : ℚ) / 1000) * p.2

/-- Python str.split() with no separator: split on runs of whitespace,
dropping empty pieces.  Accumulator holds the current word reversed. -/
def splitWsAux : List Char → List Char → List (List Char)
  | [], acc => if acc.isEmpty then [] else [acc.reverse]
  | c :: cs, acc =>
      if c.isWhitespace then
        if acc.isEmpty then splitWsAux cs []
        else acc.reverse :: splitWsAux cs []
      else splitWsAux cs (c :: acc)

/-- response.split() of utils.py line 60, on the character list of the
string. -/
def splitWs (l : List Char) : List (List Char) :=
  splitWsAux l []

/-- A Result record as built by format_response_data, utils.py lines 45-61,
before the runner adds the category and error keys (modelled as Option fields
that start as none). -/
structure FormattedResult where
  prompt_id : String
  model : String
  response : String
  latency_seconds : ℚ
  input_tokens : ℕ
  output_tokens : ℕ
  total_tokens : ℕ
  cost_usd : ℚ
  timestamp : String
  response_length : ℕ
  words_count : ℕ
  category : Option String
  error : Option Bool
deriving DecidableEq, Repr

/-- format_response_data, utils.py lines 45-61.  The wall clock read
datetime.now().isoformat() is injected as the timestamp argument. -/
def format_response_data (prompt_id response : String) (latency : ℚ)
    (input_tokens output_tokens : ℕ) (cost : ℚ) (model : String)
    (timestamp : String) : FormattedResult :=
  { prompt_id := prompt_id
    model := model
    response := response
    latency_seconds := pyRound latency 3
    input_tokens := input_tokens
    output_tokens := output_tokens
    total_tokens := input_tokens + output_tokens
    cost_usd := pyRound cost 6
    timestamp := timestamp
    response_length := response.length
    words_count := (splitWs response.data).length
    category := none
    error := none }

/-- A prompt object loaded from a category file: id and content are required
by the runners; the category key may or may not be present in the file. -/
structure Prompt where
  id : String
  content : String
  category : Option String
deriving DecidableEq, Repr

/-- The uniform outcome dict of OpenAIClient.send_prompt and
LocalLMClient.send_prompt: success carries response, latency and token and
cost figures; failure carries the stringified exception and the latency up to
the failure point. -/
inductive ApiResult where
  | success (response : String) (latency : ℚ) (input_tokens output_tokens : ℕ) (cost : ℚ)
  | failure (error : String) (latency : ℚ)
deriving DecidableEq, Repr

/-- The body of the per-prompt loop of run_prompt_category
(run_prompts_openai.py lines 97-137, run_prompts_local.py lines 108-152):
a success is formatted as is; a failure becomes an error-flagged record whose
response is the synthesized "ERROR: <message>" string, built with the
format_response_data defaults input_tokens=0, output_tokens=0, cost=0. -/
def runOnePrompt (model category timestamp : String) (p : Prompt)
    (r : ApiResult) : FormattedResult :=
  match r with
  | ApiResult.success resp lat it ot cost =>
      { format_response_data p.id resp lat it ot cost model timestamp with
        category := some category }
  | ApiResult.failure err lat =>
      { format_response_data p.id ("ERROR: " ++ err) lat 0 0 0 model timestamp with
        category := some category
        error := some true }

/-- run_prompt_category (both runner variants): one sequential client call per
prompt in listed order.  The network is injected as the oracle send (call
index, prompt content) and the wall clock as now (call index); the pacing
sleep has no observable effect on the returned value. -/
def run_prompt_category (send : ℕ → String → ApiResult) (now : ℕ → String)
    (prompts : List Prompt) (category model : String) : List FormattedResult :=
  prompts.enum.map (fun ip => runOnePrompt model category (now ip.1) ip.2 (send ip.1 ip.2.content))

/-- The observable outcome of opening and json.load-ing a file: the parsed
value, a missing file, or content that is present but not valid JSON. -/
inductive LoadOutcome (α : Type) where
  | ok (value : α)
  | fileNotFound
  | malformedJson
deriving DecidableEq, Repr

/-- The Python exception that escapes an uncaught file load. -/
inductive PyError where
  | fileNotFoundError
  | jsonDecodeError
deriving DecidableEq, Repr

/-- load_results, compare_outputs.py lines 13-23: both FileNotFoundError and
json.JSONDecodeError are caught, a message is printed, and the empty list is
returned. -/
def load_results (input : LoadOutcome (List ResultRec)) : List ResultRec :=
  match input with
  | LoadOutcome.ok rs => rs
  | LoadOutcome.fileNotFound => []
  | LoadOutcome.malformedJson => []

/-- load_prompts, utils.py lines 7-10: no handler, so any open or parse
failure propagates to the caller. -/
def load_prompts (input : LoadOutcome (List Prompt)) :
    Except PyError (List Prompt) :=
  match input with
  | LoadOutcome.ok ps => Except.ok ps
  | LoadOutcome.fileNotFound => Except.error PyError.fileNotFoundError
  | LoadOutcome.malformedJson => Except.error PyError.jsonDecodeError

/-- Specification-side word counter, independent of splitWs: the number of
positions that start a maximal whitespace-free run, scanning with a flag that
records whether the previous character was whitespace (true at the start). -/
def wordStarts : List Char → Bool → ℕ
  | [], _ => 0
  | c :: cs, prevWs =>
      (if prevWs && !c.isWhitespace then 1 else 0) + wordStarts cs c.isWhitespace

/- Concrete records used to instantiate theorems with hypotheses. -/

/-- A hosted result for prompt p1 (category coding, no error key). -/
def wHosted : ResultRec :=
  { prompt_id := "p1", model := "gpt-4", response := "hi there",
    latency_seconds := 2, total_tokens := some 10, cost_usd := some (1 / 20),
    response_length := 8, words_count := some 2, category := some "coding",
    error := none }

/-- A local result for prompt p1 whose category disagrees with the hosted
one. -/
def wLocal : ResultRec :=
  { prompt_id := "p1", model := "gpt-oss-20b", response := "hello",
    latency_seconds := 4, total_tokens := some 7, cost_usd := none,
    response_length := 5, words_count := some 1, category := some "creative",
    error := some false }

/-- Singleton hosted result set. -/
def wA : List ResultRec := [wHosted]

/-- Singleton local result set. -/
def wB : List ResultRec := [wLocal]

/-- A comparison whose hosted side is error-flagged, so both_successful is
false. -/
def wFailComp : Comparison :=
  mkComparison "p2" { wHosted with prompt_id := "p2", error := some true } wLocal

/-- A successful comparison (both error keys falsy). -/
def wGoodComp : Comparison := mkComparison "p1" wHosted wLocal

/-- 1 successful comparison followed by 2000 failed ones: the successful
fraction is 1/2001, whose percentage rounds to 0.0 at one decimal place. -/
def badComparisons : List Comparison := wGoodComp :: List.replicate 2000 wFailComp

/-- An oracle network that fails every call. -/
def wSend : ℕ → String → ApiResult := fun _ _ => ApiResult.failure "timeout" 1

/-- A constant wall clock. -/
def wNow : ℕ → String := fun _ => "2024-01-01T00:00:00"

/-- A single prompt. -/
def wPrompts : List Prompt := [{ id := "p1", content := "hello", category := none }]

/-- Fallback analysis value (never actually used: the extraction below is from
an ok result). -/
def wAnalysisDefault : Analysis :=
  { overview := ⟨0, 0, 0, 0, 0, 0⟩, category_breakdown := [] }

/-- The analysis the aggregator returns on the singleton successful
comparison list. -/
def wAnalysis : Analysis :=
  (generate_performance_analysis [wGoodComp]).toOption.getD wAnalysisDefault

/- ===================== Supporting lemmas ===================== -/

theorem dictLookup_isSome_iff (rs : List ResultRec) (pid : String) :
    (dictLookup rs pid).isSome ↔ pid ∈ keysOf rs := by
  unfold dictLookup keysOf
  rw [List.find?_isSome]
  constructor
  · rintro ⟨r, hr, hpr⟩
    exact List.mem_map.mpr ⟨r, List.mem_reverse.mp hr, by simpa using hpr⟩
  · intro h
    obtain ⟨r, hr, hpr⟩ := List.mem_map.mp h
    exact ⟨r, List.mem_reverse.mpr hr, by simp [hpr]⟩

theorem mem_sortedCommon {a b : List ResultRec} {pid : String} :
    pid ∈ sortedCommon a b ↔ pid ∈ keysOf a ∧ pid ∈ keysOf b := by
  unfold sortedCommon
  rw [List.mem_insertionSort, List.mem_filter, List.mem_dedup]
  simp

theorem nodup_sortedCommon (a b : List ResultRec) : (sortedCommon a b).Nodup :=
  ((List.perm_insertionSort _ _).nodup_iff).mpr ((List.nodup_dedup _).filter _)

theorem sorted_lt_sortedCommon (a b : List ResultRec) :
    List.Sorted (· < ·) (sortedCommon a b) :=
  (List.sorted_insertionSort _ _).lt_of_le (nodup_sortedCommon a b)

theorem length_sortedCommon (a b : List ResultRec) :
    (sortedCommon a b).length = ((keysOf a).toFinset ∩ (keysOf b).toFinset).card := by
  unfold sortedCommon
  rw [List.length_insertionSort]
  have hnd : ((keysOf a).dedup.filter (fun k => (keysOf b).contains k)).Nodup :=
    (List.nodup_dedup _).filter _
  rw [← List.toFinset_card_of_nodup hnd]
  congr 1
  ext x
  simp [List.mem_filter, List.mem_dedup]

theorem create_map_prompt_id (a b : List ResultRec) :
    (create_side_by_side_comparison a b).map (fun c => c.prompt_id)
      = sortedCommon a b := by
  unfold create_side_by_side_comparison
  have key : ∀ l : List String, (∀ pid ∈ l, pid ∈ keysOf a ∧ pid ∈ keysOf b) →
      (l.filterMap (comparisonStep a b)).map (fun c => c.prompt_id) = l := by
    intro l
    induction l with
    | nil => intro _; rfl
    | cons x xs ih =>
      intro h
      obtain ⟨hxa, hxb⟩ := h x (List.mem_cons_self x xs)
      obtain ⟨o, ho⟩ := Option.isSome_iff_exists.mp ((dictLookup_isSome_iff a x).mpr hxa)
      obtain ⟨lr, hl⟩ := Option.isSome_iff_exists.mp ((dictLookup_isSome_iff b x).mpr hxb)
      simp only [List.filterMap_cons, comparisonStep, ho, hl, List.map_cons]
      rw [ih (fun p hp => h p (List.mem_cons_of_mem _ hp))]
      rfl
  exact key _ (fun pid hp => mem_sortedCommon.mp hp)

/- ===================== Claim C1 ===================== -/

/-- Claim C1: the comparator emits exactly one Comparison per prompt_id in the
intersection of the two prompt_id key sets, in strictly increasing
(lexicographic) prompt_id order; the output length equals the cardinality of
the key-set intersection and never exceeds min of the two input lengths. -/
theorem comparator_output_characterization (a b : List ResultRec) :
    (create_side_by_side_comparison a b).map (fun c => c.prompt_id)
        = sortedCommon a b ∧
    List.Sorted (· < ·)
        ((create_side_by_side_comparison a b).map (fun c => c.prompt_id)) ∧
    (∀ pid : String,
        pid ∈ (create_side_by_side_comparison a b).map (fun c => c.prompt_id) ↔
          pid ∈ keysOf a ∧ pid ∈ keysOf b) ∧
    (create_side_by_side_comparison a b).length
        = ((keysOf a).toFinset ∩ (keysOf b).toFinset).card ∧
    (create_side_by_side_comparison a b).length ≤ min a.length b.length := by
  have hmap := create_map_prompt_id a b
  have hlen : (create_side_by_side_comparison a b).length
      = ((keysOf a).toFinset ∩ (keysOf b).toFinset).card := by
    have := congrArg List.length hmap
    rw [List.length_map] at this
    rw [this, length_sortedCommon]
  refine ⟨hmap, ?_, ?_, hlen, ?_⟩
  · rw [hmap]; exact sorted_lt_sortedCommon a b
  · intro pid; rw [hmap]; exact mem_sortedCommon
  · rw [hlen]
    have hA : ((keysOf a).toFinset ∩ (keysOf b).toFinset).card
        ≤ (keysOf a).toFinset.card :=
      Finset.card_le_card (Finset.inter_subset_left)
    have hB : ((keysOf a).toFinset ∩ (keysOf b).toFinset).card
        ≤ (keysOf b).toFinset.card :=
      Finset.card_le_card (Finset.inter_subset_right)
    have hA2 : (keysOf a).toFinset.card ≤ a.length := by
      calc (keysOf a).toFinset.card ≤ (keysOf a).length := List.toFinset_card_le _
        _ = a.length := List.length_map _ _
    have hB2 : (keysOf b).toFinset.card ≤ b.length := by
      calc (keysOf b).toFinset.card ≤ (keysOf b).length := List.toFinset_card_le _
        _ = b.length := List.length_map _ _
    exact le_min (le_trans hA hA2) (le_trans hB hB2)

theorem mem_create_elim {a b : List ResultRec} {c : Comparison}
    (hc : c ∈ create_side_by_side_comparison a b) :
    ∃ pid o l, dictLookup a pid = some o ∧ dictLookup b pid = some l ∧
      c = mkComparison pid o l := by
  unfold create_side_by_side_comparison at hc
  obtain ⟨pid, _, hstep⟩ := List.mem_filterMap.mp hc
  unfold comparisonStep at hstep
  cases ho : dictLookup a pid with
  | none => rw [ho] at hstep; cases hstep
  | some o =>
    cases hl : dictLookup b pid with
    | none => rw [ho, hl] at hstep; cases hstep
    | some l =>
      rw [ho, hl] at hstep
      exact ⟨pid, o, l, ho, hl, (Option.some.inj hstep).symm⟩

/- ===================== Claim C2 ===================== -/

/-- Claim C2: every emitted Comparison has comparison_metrics equal to the
reference formulas computed from the two source records found under its
prompt_id: latency_ratio = local latency / max(hosted latency, 0.001),
length_ratio = local response_length / max(hosted response_length, 1),
cost_savings = hosted cost_usd defaulting to 0, and both_successful is the
negation of (hosted error or local error) with a missing error key read as
false. -/
theorem comparison_metrics_formulas (a b : List ResultRec) (c : Comparison)
    (hc : c ∈ create_side_by_side_comparison a b) :
    ∃ o l, dictLookup a c.prompt_id = some o ∧ dictLookup b c.prompt_id = some l ∧
      c.comparison_metrics.latencyRel
          = l.latency_seconds / max o.latency_seconds (1 / 1000) ∧
      c.comparison_metrics.lengthRel
          = (l.response_length : ℚ) / ((max o.response_length 1 : ℕ) : ℚ) ∧
      c.comparison_metrics.cost_savings = o.cost_usd.getD 0 ∧
      c.comparison_metrics.both_successful
          = !(o.error.getD false || l.error.getD false) := by
  obtain ⟨pid, o, l, ho, hl, hck⟩ := mem_create_elim hc
  subst hck
  exact ⟨o, l, ho, hl, rfl, rfl, rfl, rfl⟩

/-- Witness for C2 at the singleton inputs wA and wB. -/
theorem comparison_metrics_formulas_witness :
    ∃ o l, dictLookup wA (mkComparison "p1" wHosted wLocal).prompt_id = some o ∧
      dictLookup wB (mkComparison "p1" wHosted wLocal).prompt_id = some l ∧
      (mkComparison "p1" wHosted wLocal).comparison_metrics.latencyRel
          = l.latency_seconds / max o.latency_seconds (1 / 1000) ∧
      (mkComparison "p1" wHosted wLocal).comparison_metrics.lengthRel
          = (l.response_length : ℚ) / ((max o.response_length 1 : ℕ) : ℚ) ∧
      (mkComparison "p1" wHosted wLocal).comparison_metrics.cost_savings
          = o.cost_usd.getD 0 ∧
      (mkComparison "p1" wHosted wLocal).comparison_metrics.both_successful
          = !(o.error.getD false || l.error.getD false) :=
  comparison_metrics_formulas wA wB (mkComparison "p1" wHosted wLocal) (by
    have h : create_side_by_side_comparison wA wB = [mkComparison "p1" wHosted wLocal] := rfl
    rw [h]
    exact List.mem_singleton_self _)

/- ===================== Claim C9 ===================== -/

/-- Claim C9: the category of an emitted Comparison is taken solely from the
hosted record found under its prompt_id, with default "unknown"; no field of
the local record enters the formula. -/
theorem comparison_category_from_hosted (a b : List ResultRec) (c : Comparison)
    (hc : c ∈ create_side_by_side_comparison a b) :
    ∃ o, dictLookup a c.prompt_id = some o ∧ c.category = o.category.getD "unknown" := by
  obtain ⟨pid, o, l, ho, _, hck⟩ := mem_create_elim hc
  subst hck
  exact ⟨o, ho, rfl⟩

/-- Witness for C9 at inputs whose hosted and local categories disagree
(coding vs creative): the output category is the hosted one. -/
theorem comparison_category_from_hosted_witness :
    ∃ o, dictLookup wA (mkComparison "p1" wHosted wLocal).prompt_id = some o ∧
      (mkComparison "p1" wHosted wLocal).category = o.category.getD "unknown" :=
  comparison_category_from_hosted wA wB (mkComparison "p1" wHosted wLocal) (by
    have h : create_side_by_side_comparison wA wB = [mkComparison "p1" wHosted wLocal] := rfl
    rw [h]
    exact List.mem_singleton_self _)

/- ===================== Claim C3 ===================== -/

/-- Claim C3: the analysis aggregator returns the structured error value (not
numeric statistics) whenever the comparison list is empty or no comparison is
successful; being a total Lean function it raises nothing. -/
theorem analysis_error_on_empty_or_all_failed (comparisons : List Comparison)
    (h : comparisons = [] ∨ ∀ c ∈ comparisons, c.comparison_metrics.both_successful = false) :
    ∃ msg, generate_performance_analysis comparisons = Except.error msg := by
  rcases h with rfl | hall
  · exact ⟨"No comparisons available", rfl⟩
  · by_cases he : comparisons.isEmpty
    · refine ⟨"No comparisons available", ?_⟩
      unfold generate_performance_analysis
      rw [if_pos he]
    · refine ⟨"No successful comparisons available", ?_⟩
      unfold generate_performance_analysis
      rw [if_neg he]
      have hfil : comparisons.filter (fun c => c.comparison_metrics.both_successful) = [] :=
        List.filter_eq_nil_iff.mpr (fun c hc => by simp [hall c hc])
      simp only [hfil]
      rfl

/-- Witness for C3 at a nonempty list with a single failed comparison. -/
theorem analysis_error_on_empty_or_all_failed_witness :
    ∃ msg, generate_performance_analysis [wFailComp] = Except.error msg :=
  analysis_error_on_empty_or_all_failed [wFailComp]
    (Or.inr (by
      intro c hc
      rw [List.mem_singleton] at hc
      subst hc
      rfl))

/- ===================== Claim C4 (corrected) ===================== -/

/-- Counterexample to C4 as stated: on content that is present but not valid
JSON, load_results of compare_outputs.py does NOT propagate the parse error;
it catches json.JSONDecodeError and returns the empty list. -/
theorem load_results_swallows_malformed_json :
    load_results LoadOutcome.malformedJson = [] := rfl

/-- C4 amended: load_prompts (utils.py) propagates the parse error on
malformed JSON, while load_results (compare_outputs.py) catches it and
recovers with the empty list. -/
theorem load_malformed_json_behavior :
    load_prompts LoadOutcome.malformedJson = Except.error PyError.jsonDecodeError ∧
    load_results LoadOutcome.malformedJson = [] :=
  ⟨rfl, rfl⟩

/- ===================== Claim C5 ===================== -/

/-- Claim C5: the cost is (input_tokens/1000) * input_rate +
(output_tokens/1000) * output_rate with the rates taken from the static price
table, and a model name missing from the table is charged at the gpt-4 rates
(0.03 and 0.06 per 1000 tokens) instead of raising or costing zero. -/
theorem calculate_tokens_cost_table_and_fallback (it ot : ℕ) (model : String) :
    (∀ rates, pricing.lookup model = some rates →
        calculate_tokens_cost it ot model
          = ((it : ℚ) / 1000) * rates.1 + ((ot : ℚ) / 1000) * rates.2) ∧
    (pricing.lookup model = none →
        calculate_tokens_cost it ot model
          = ((it : ℚ) / 1000) * (3 / 100) + ((ot : ℚ) / 1000) * (6 / 100)) := by
  constructor
  · intro rates h
    unfold calculate_tokens_cost
    simp [h]
  · intro h
    have hg : pricing.lookup "gpt-4" = some ((3 : ℚ) / 100, (6 : ℚ) / 100) := rfl
    unfold calculate_tokens_cost
    rw [h]
    simp [hg]

/-- Witness for C5: the unknown model name claude is charged at the gpt-4
rates. -/
theorem calculate_tokens_cost_fallback_witness :
    calculate_tokens_cost 1000 2000 "claude"
      = (((1000 : ℕ) : ℚ) / 1000) * (3 / 100) + (((2000 : ℕ) : ℚ) / 1000) * (6 / 100) :=
  (calculate_tokens_cost_table_and_fallback 1000 2000 "claude").2 rfl

/- ===================== Claim C6 ===================== -/

theorem splitWsAux_length (l : List Char) (acc : List Char) :
    (splitWsAux l acc).length
      = if acc.isEmpty then wordStarts l true else 1 + wordStarts l false := by
  induction l generalizing acc with
  | nil => cases acc <;> simp [splitWsAux, wordStarts]
  | cons c cs ih =>
    by_cases hws : c.isWhitespace <;> cases acc <;>
      · first
        | (simp [splitWsAux, wordStarts, hws, ih]; omega)
        | simp [splitWsAux, wordStarts, hws, ih]

theorem splitWs_length (l : List Char) : (splitWs l).length = wordStarts l true := by
  simp [splitWs, splitWsAux_length]

/-- Claim C6: every record built by format_response_data satisfies
total_tokens = input_tokens + output_tokens, response_length = character
count of response, and words_count = number of whitespace-delimited tokens of
response (stated against the independent counter wordStarts). -/
theorem format_response_data_invariants (pid resp : String) (lat : ℚ)
    (it ot : ℕ) (cost : ℚ) (model ts : String) :
    (format_response_data pid resp lat it ot cost model ts).total_tokens
        = (format_response_data pid resp lat it ot cost model ts).input_tokens
          + (format_response_data pid resp lat it ot cost model ts).output_tokens ∧
    (format_response_data pid resp lat it ot cost model ts).total_tokens = it + ot ∧
    (format_response_data pid resp lat it ot cost model ts).response_length
        = resp.length ∧
    (format_response_data pid resp lat it ot cost model ts).words_count
        = wordStarts resp.data true := by
  refine ⟨rfl, rfl, rfl, ?_⟩
  simp [format_response_data, splitWs_length]

/- ===================== Claim C7 ===================== -/

/-- Claim C7: the category runner returns exactly one record per input
prompt, and each per-request failure yields an error-flagged record whose
response is the nonempty string "ERROR: " followed by the failure message,
under the prompt's id; a failure never shortens the output. -/
theorem runner_failure_records (send : ℕ → String → ApiResult) (now : ℕ → String)
    (prompts : List Prompt) (category model : String) :
    (run_prompt_category send now prompts category model).length = prompts.length ∧
    (∀ i (hi : i < prompts.length) err lat,
        send i (prompts.get ⟨i, hi⟩).content = ApiResult.failure err lat →
        ∀ hi2 : i < (run_prompt_category send now prompts category model).length,
          ((run_prompt_category send now prompts category model).get ⟨i, hi2⟩).error
              = some true ∧
          ((run_prompt_category send now prompts category model).get ⟨i, hi2⟩).response
              = "ERROR: " ++ err ∧
          ((run_prompt_category send now prompts category model).get ⟨i, hi2⟩).response
              ≠ "" ∧
          ((run_prompt_category send now prompts category model).get ⟨i, hi2⟩).prompt_id
              = (prompts.get ⟨i, hi⟩).id) := by
  constructor
  · simp [run_prompt_category]
  · intro i hi err lat hsend hi2
    have hget : (run_prompt_category send now prompts category model).get ⟨i, hi2⟩
        = runOnePrompt model category (now i) (prompts.get ⟨i, hi⟩)
            (send i (prompts.get ⟨i, hi⟩).content) := by
      simp [run_prompt_category, List.get_eq_getElem, List.getElem_map, List.getElem_enum]
    rw [hget, hsend]
    refine ⟨rfl, rfl, ?_, rfl⟩
    intro hemp
    simp only [runOnePrompt, format_response_data] at hemp
    have hlen := congrArg String.length hemp
    rw [String.length_append] at hlen
    have h7 : ("ERROR: ").length = 7 := rfl
    have h0 : ("" : String).length = 0 := rfl
    omega

theorem wRunPos : 0 < (run_prompt_category wSend wNow wPrompts "coding" "gpt-4").length := by
  decide

/-- Witness for C7: a single prompt whose request fails produces the
error-flagged ERROR: timeout record. -/
theorem runner_failure_records_witness :
    ((run_prompt_category wSend wNow wPrompts "coding" "gpt-4").get
        ⟨0, wRunPos⟩).error = some true ∧
    ((run_prompt_category wSend wNow wPrompts "coding" "gpt-4").get
        ⟨0, wRunPos⟩).response = "ERROR: " ++ "timeout" ∧
    ((run_prompt_category wSend wNow wPrompts "coding" "gpt-4").get
        ⟨0, wRunPos⟩).response ≠ "" ∧
    ((run_prompt_category wSend wNow wPrompts "coding" "gpt-4").get
        ⟨0, wRunPos⟩).prompt_id = (wPrompts.get ⟨0, by decide⟩).id :=
  (runner_failure_records wSend wNow wPrompts "coding" "gpt-4").2 0 (by decide)
    "timeout" 1 rfl wRunPos

/- ============== Supporting lemmas for the analysis claims ============== -/

theorem analysis_ok_elim {comps : List Comparison} {a : Analysis}
    (h : generate_performance_analysis comps = Except.ok a) :
    comps.isEmpty = false ∧
    (comps.filter (fun c => c.comparison_metrics.both_successful)).isEmpty = false ∧
    a.overview.success_rate
      = pyRound (((comps.filter (fun c => c.comparison_metrics.both_successful)).length : ℚ)
          / (comps.length : ℚ) * 100) 1 ∧
    a.category_breakdown
      = ((comps.filter (fun c => c.comparison_metrics.both_successful)).foldl updateCat []).map
          finalizeCat := by
  simp only [generate_performance_analysis] at h
  by_cases h1 : comps.isEmpty
  · rw [if_pos h1] at h; cases h
  · rw [if_neg h1] at h
    by_cases h2 : (comps.filter (fun c => c.comparison_metrics.both_successful)).isEmpty
    · rw [if_pos h2] at h; cases h
    · rw [if_neg h2] at h
      injection h with h3
      subst h3
      exact ⟨Bool.eq_false_iff.mpr h1, Bool.eq_false_iff.mpr h2, rfl, rfl⟩

theorem round_mono_rat {x y : ℚ} (h : x ≤ y) : round x ≤ round y := by
  rw [round_eq, round_eq]
  exact Int.floor_le_floor (by linarith)

theorem updateCat_count_pos {acc : List (String × CategoryStats)}
    (hacc : ∀ p ∈ acc, 0 < p.2.count) (c : Comparison) :
    ∀ p ∈ updateCat acc c, 0 < p.2.count := by
  intro p hp
  simp only [updateCat] at hp
  by_cases hin : acc.any (fun q => q.1 == c.category)
  · rw [if_pos hin] at hp
    obtain ⟨q, hq, hqe⟩ := List.mem_map.mp hp
    by_cases he : q.1 == c.category
    · rw [if_pos he] at hqe
      rw [← hqe]
      exact Nat.succ_pos _
    · rw [if_neg he] at hqe
      rw [← hqe]
      exact hacc q hq
  · rw [if_neg hin, List.mem_append] at hp
    rcases hp with hp | hp
    · exact hacc p hp
    · rw [List.mem_singleton] at hp
      rw [hp]
      exact Nat.succ_pos _

theorem foldl_updateCat_count_pos (cs : List Comparison) :
    ∀ acc, (∀ p ∈ acc, 0 < p.2.count) → ∀ p ∈ cs.foldl updateCat acc, 0 < p.2.count := by
  induction cs with
  | nil => intro acc hacc p hp; exact hacc p hp
  | cons c cs ih =>
    intro acc hacc p hp
    exact ih _ (updateCat_count_pos hacc c) p hp

theorem filter_replicate_not {p : Comparison → Bool} {x : Comparison} (hx : p x = false) :
    ∀ n, (List.replicate n x).filter p = [] := by
  intro n
  induction n with
  | zero => rfl
  | succ n ih => rw [List.replicate_succ, List.filter_cons, hx]; simpa using ih

theorem badComparisons_success_rate :
    Except.map (fun a => a.overview.success_rate)
        (generate_performance_analysis badComparisons) = Except.ok 0 := by
  have hgood : wGoodComp.comparison_metrics.both_successful = true := rfl
  have hbadc : wFailComp.comparison_metrics.both_successful = false := rfl
  have hfil : badComparisons.filter (fun c => c.comparison_metrics.both_successful)
      = [wGoodComp] := by
    unfold badComparisons
    rw [List.filter_cons, hgood, filter_replicate_not hbadc]
    rfl
  have hne : badComparisons.isEmpty = false := rfl
  have hlen : badComparisons.length = 2001 := by
    unfold badComparisons
    rw [List.length_cons, List.length_replicate]
  simp only [generate_performance_analysis, hne, Bool.false_eq_true, if_false, hfil, hlen]
  simp only [List.isEmpty_cons, if_false, Except.map, List.length_cons, List.length_nil]
  have hr : round (((1 : ℚ)) / 2001 * 100 * 10 ^ 1) = 0 := by
    rw [round_eq_zero_iff]
    constructor <;> norm_num
  simp only [Nat.cast_ofNat, Nat.cast_one]
  norm_num [pyRound, hr]

/- ===================== Claim C8 (corrected) ===================== -/

/-- Counterexample to C8 as stated: with 1 successful comparison out of 2001,
the aggregator returns a numeric analysis (not the error indicator) whose
reported success_rate is 0 after rounding 100/2001 to one decimal place, so
success_rate = 0 does not happen only in the no-successful case. -/
theorem success_rate_zero_with_successful :
    (∃ c ∈ badComparisons, c.comparison_metrics.both_successful = true) ∧
    Except.map (fun a => a.overview.success_rate)
        (generate_performance_analysis badComparisons) = Except.ok 0 :=
  ⟨⟨wGoodComp, List.mem_cons_self _ _, rfl⟩, badComparisons_success_rate⟩

/-- Claim C8 (amended): in every non-error analysis, success_rate equals
(successful count / total count) * 100 rounded to one decimal place and lies
in [0, 100]; with no successful comparison the aggregator returns the error
indicator instead of numeric ratios, but the rounded success_rate can also be
0 with a successful comparison present (1 of 2001), so 0 is not exclusive to
the error case. -/
theorem success_rate_formula_and_range (comps : List Comparison) (a : Analysis)
    (h : generate_performance_analysis comps = Except.ok a) :
    a.overview.success_rate
        = pyRound (((comps.filter (fun c => c.comparison_metrics.both_successful)).length : ℚ)
            / (comps.length : ℚ) * 100) 1 ∧
    0 ≤ a.overview.success_rate ∧ a.overview.success_rate ≤ 100 := by
  obtain ⟨h1, _, hsr, _⟩ := analysis_ok_elim h
  have ht : 0 < (comps.length : ℚ) := by
    have hne : comps ≠ [] := by
      intro hc
      rw [hc] at h1
      cases h1
    exact_mod_cast List.length_pos.mpr hne
  have hs0 : 0 ≤ ((comps.filter (fun c => c.comparison_metrics.both_successful)).length : ℚ) := by
    positivity
  have hst : ((comps.filter (fun c => c.comparison_metrics.both_successful)).length : ℚ)
      ≤ (comps.length : ℚ) := by
    exact_mod_cast List.length_filter_le _ _
  have hq0 : 0 ≤ ((comps.filter (fun c => c.comparison_metrics.both_successful)).length : ℚ)
      / (comps.length : ℚ) := div_nonneg hs0 ht.le
  have hq1 : ((comps.filter (fun c => c.comparison_metrics.both_successful)).length : ℚ)
      / (comps.length : ℚ) ≤ 1 := (div_le_one ht).mpr hst
  refine ⟨hsr, ?_, ?_⟩
  · rw [hsr]
    unfold pyRound
    apply div_nonneg _ (by positivity)
    have h0 := round_mono_rat (show (0 : ℚ)
        ≤ ((comps.filter (fun c => c.comparison_metrics.both_successful)).length : ℚ)
          / (comps.length : ℚ) * 100 * 10 ^ 1 by positivity)
    rw [round_zero] at h0
    exact_mod_cast h0
  · rw [hsr]
    unfold pyRound
    rw [div_le_iff₀ (by positivity)]
    have hb : ((comps.filter (fun c => c.comparison_metrics.both_successful)).length : ℚ)
        / (comps.length : ℚ) * 100 * 10 ^ 1 ≤ 1000 := by nlinarith
    have hrb := round_mono_rat hb
    have h1000 : round ((1000 : ℚ)) = 1000 := by norm_num
    rw [h1000] at hrb
    have : ((round (((comps.filter (fun c => c.comparison_metrics.both_successful)).length : ℚ)
        / (comps.length : ℚ) * 100 * 10 ^ 1) : ℤ) : ℚ) ≤ 1000 := by exact_mod_cast hrb
    calc ((round (((comps.filter (fun c => c.comparison_metrics.both_successful)).length : ℚ)
          / (comps.length : ℚ) * 100 * 10 ^ 1) : ℤ) : ℚ) ≤ 1000 := this
      _ = 100 * 10 ^ 1 := by norm_num

/-- Witness for C8 (amended) at the singleton successful list: success_rate
is 100. -/
theorem success_rate_formula_and_range_witness :
    wAnalysis.overview.success_rate
        = pyRound (((([wGoodComp] : List Comparison).filter
              (fun c => c.comparison_metrics.both_successful)).length : ℚ)
            / (([wGoodComp] : List Comparison).length : ℚ) * 100) 1 ∧
    0 ≤ wAnalysis.overview.success_rate ∧ wAnalysis.overview.success_rate ≤ 100 :=
  success_rate_formula_and_range [wGoodComp] wAnalysis rfl

/- ===================== Claim C10 (corrected) ===================== -/

/-- Counterexample to C10 as stated: the same 1-of-2001 input yields a
returned (non-error) analysis whose reported success_rate equals 0, refuting
that every returned analysis has success_rate strictly greater than 0. -/
theorem analysis_ok_with_zero_success_rate :
    Except.map (fun a => a.overview.success_rate)
        (generate_performance_analysis badComparisons) = Except.ok 0 ∧
    (generate_performance_analysis badComparisons).toOption.isSome = true := by
  refine ⟨badComparisons_success_rate, ?_⟩
  have hb := badComparisons_success_rate
  cases hg : generate_performance_analysis badComparisons with
  | error e => rw [hg] at hb; cases hb
  | ok a => rfl

/-- Claim C10 (amended): on every non-error run all divisions have strictly
positive divisors - the total count, the successful count and every
per-category count are at least 1 - and the unrounded successful fraction is
strictly positive; the rounded reported success_rate, however, can be 0 (see
the counterexample), so only the unrounded fraction is guaranteed positive. -/
theorem analysis_divisors_positive (comps : List Comparison) (a : Analysis)
    (h : generate_performance_analysis comps = Except.ok a) :
    0 < comps.length ∧
    0 < (comps.filter (fun c => c.comparison_metrics.both_successful)).length ∧
    (∀ p ∈ a.category_breakdown, 0 < p.2.count) ∧
    0 < ((comps.filter (fun c => c.comparison_metrics.both_successful)).length : ℚ)
        / (comps.length : ℚ) := by
  obtain ⟨h1, h2, _, hcats⟩ := analysis_ok_elim h
  have hne : comps ≠ [] := by
    intro hc; rw [hc] at h1; cases h1
  have hsne : comps.filter (fun c => c.comparison_metrics.both_successful) ≠ [] := by
    intro hc; rw [hc] at h2; cases h2
  have hlen : 0 < comps.length := List.length_pos.mpr hne
  have hslen : 0 < (comps.filter (fun c => c.comparison_metrics.both_successful)).length :=
    List.length_pos.mpr hsne
  refine ⟨hlen, hslen, ?_, ?_⟩
  · intro p hp
    rw [hcats] at hp
    obtain ⟨q, hq, hqe⟩ := List.mem_map.mp hp
    have hqpos := foldl_updateCat_count_pos _ [] (by intro r hr; cases hr) q hq
    rw [← hqe]
    simpa [finalizeCat] using hqpos
  · apply div_pos
    · exact_mod_cast hslen
    · exact_mod_cast hlen

/-- Witness for C10 (amended) at the singleton successful list. -/
theorem analysis_divisors_positive_witness :
    0 < ([wGoodComp] : List Comparison).length ∧
    0 < (([wGoodComp] : List Comparison).filter
          (fun c => c.comparison_metrics.both_successful)).length ∧
    (∀ p ∈ wAnalysis.category_breakdown, 0 < p.2.count) ∧
    0 < ((([wGoodComp] : List Comparison).filter
          (fun c => c.comparison_metrics.both_successful)).length : ℚ)
        / (([wGoodComp] : List Comparison).length : ℚ) :=
  analysis_divisors_positive [wGoodComp] wAnalysis rfl

end LLMBench
